import Mathlib

/-!
Verification of the sshmaster repository core: the tunnel layer
(src/controllers/ssh_controllers.py) and the entity model
(src/models/models.py), embedded shallowly.

Tunnel layer. The Python code distinguishes three classes of failure of a
single connection attempt by its two nested except clauses:
except OSError (connection refused, network unreachable, ...), retried
while the retry budget is positive, and
except (asyncssh.Error, asyncio.TimeoutError), never retried.
A successful handshake is followed by an end-to-end IP lookup through the
new SOCKS5 endpoint; an empty lookup kills the fresh connection and raises
SSHError without retrying. Each attempt of connect_ssh is therefore one of
four outcomes, abstracted below as AttemptOutcome; a run of connect_ssh is
driven by an oracle giving the outcome of the i-th attempt (the host,
username, password and ssh_port arguments are fixed inside the oracle).
The process-wide mutable state is the proxies list; we also record which
connection handles have been closed by utils.kill_ssh_connection.
-/

namespace SshMaster

/-- Failure class of one connection attempt, as discriminated by the two
except clauses of connect_ssh: osError is anything matching except OSError
(connection refused, network unreachable); timeoutError is
asyncio.TimeoutError and sshProtoError is asyncssh.Error, both matched by
the second except clause. -/
inductive ConnErr where
  | osError
  | timeoutError
  | sshProtoError
deriving Repr, DecidableEq

/-- The Python type name used in the SSHError message
f-string, type(exc).__name__. -/
def errName : ConnErr → String
  | .osError => "OSError"
  | .timeoutError => "TimeoutError"
  | .sshProtoError => "Error"

/-- Outcome of a single attempt: connected b means the handshake and the
SOCKS5 forward succeeded and b tells whether get_proxy_ip returned a
non-empty result; failed e means the attempt raised an exception of
class e. -/
inductive AttemptOutcome where
  | connected (verified : Bool)
  | failed (e : ConnErr)
deriving Repr, DecidableEq

/-- ProxyInfo dataclass of ssh_controllers.py. The connection handle is
abstracted as a number. -/
structure ProxyInfo where
  port : Nat
  connection : Nat
  host : String := "localhost"
  proxy_type : String := "socks5"
deriving Repr, DecidableEq

/-- The address property of ProxyInfo. -/
def ProxyInfo.address (p : ProxyInfo) : String :=
  p.proxy_type ++ "://" ++ p.host ++ ":" ++ toString p.port

/-- Result of connect_ssh: the returned ProxyInfo, or the raised SSHError
with its message. -/
inductive SSHResult where
  | ok (p : ProxyInfo)
  | sshError (msg : String)
deriving Repr, DecidableEq

/-- The process-wide mutable state of the module: the proxies registry
list, plus the trace of connection handles closed through
utils.kill_ssh_connection. -/
structure TunnelState where
  proxies : List ProxyInfo := []
  closed : List Nat := []
deriving Repr, DecidableEq

/-- kill_proxy_on_port: scan the proxies list for the first entry with the
given port; remove it and report it (its connection is then closed); if
none matches, fail (raise SSHError). -/
def kill_proxy_on_port : List ProxyInfo → Nat → Option (List ProxyInfo × ProxyInfo)
  | [], _ => none
  | p :: ps, port =>
    if p.port = port then some (ps, p)
    else
      match kill_proxy_on_port ps port with
      | some (ps2, q) => some (p :: ps2, q)
      | none => none

/-- kill_proxy_on_port acting on the whole module state: on success the
removed session is deleted from the registry and its connection handle is
closed. -/
def kill_proxy_state (st : TunnelState) (port : Nat) : Option TunnelState :=
  match kill_proxy_on_port st.proxies port with
  | some (ps2, q) => some { proxies := ps2, closed := st.closed ++ [q.connection] }
  | none => none

/-- The try kill_proxy_on_port / except SSHError pass prologue of
connect_ssh: tear down an existing session on the port if there is one,
ignore the error otherwise. -/
def kill_proxy_if_any (st : TunnelState) (port : Nat) : TunnelState :=
  (kill_proxy_state st port).getD st

/-- The body of connect_ssh, recursing exactly as the Python function
reinvokes itself with retry - 1 from the except OSError clause. Arguments:
the attempt oracle, the local port, the remaining retry budget, the index
of the current attempt (also used as the handle of the connection this
attempt would create), and the module state. Returns the final module
state, the number of connection attempts performed, and the result. -/
def connect_ssh_loop (oracle : Nat → AttemptOutcome) (port : Nat)
    (retry i : Nat) (st : TunnelState) : TunnelState × Nat × SSHResult :=
  let st1 := kill_proxy_if_any st port
  match oracle i, retry with
  | .connected true, _ =>
    let pinfo : ProxyInfo := { port := port, connection := i }
    ({ proxies := st1.proxies ++ [pinfo], closed := st1.closed }, 1, .ok pinfo)
  | .connected false, _ =>
    ({ proxies := st1.proxies, closed := st1.closed ++ [i] }, 1,
      .sshError "Cannot connect to forwarded proxy.")
  | .failed .osError, r + 1 =>
    let t := connect_ssh_loop oracle port r (i + 1) st1
    (t.1, t.2.1 + 1, t.2.2)
  | .failed .osError, 0 => (st1, 1, .sshError (errName .osError ++ ": ."))
  | .failed .timeoutError, _ => (st1, 1, .sshError (errName .timeoutError ++ ": ."))
  | .failed .sshProtoError, _ => (st1, 1, .sshError (errName .sshProtoError ++ ": ."))

/-- connect_ssh with an explicit local port (in the source a free port is
allocated by utils.get_free_port when none is given). -/
def connect_ssh (oracle : Nat → AttemptOutcome) (port : Nat) (retry : Nat)
    (st : TunnelState) : TunnelState × Nat × SSHResult :=
  connect_ssh_loop oracle port retry 0 st

/-- verify_ssh: call connect_ssh with the default retry budget 3; on
success close the returned connection (utils.kill_ssh_connection) and
return True; convert a raised SSHError into False. Note the success path
closes the connection but does not remove the entry connect_ssh appended
to the proxies registry. -/
def verify_ssh (oracle : Nat → AttemptOutcome) (port : Nat) (st : TunnelState) :
    TunnelState × Bool :=
  match connect_ssh oracle port 3 st with
  | (st2, _, .ok pinfo) =>
    ({ proxies := st2.proxies, closed := st2.closed ++ [pinfo.connection] }, true)
  | (st2, _, .sshError _) => (st2, false)

/-- The algorithm dictionary built by get_algs_config. -/
structure AlgsConfig where
  server_host_key_algs : List String
  kex_algs : List String
  encryption_algs : List String
  mac_algs : List String
  compression_algs : List String
  signature_algs : List String
deriving Repr, DecidableEq

/-- get_algs_config. The lists obtained from asyncssh
(get_kex_algs, get_encryption_algs, get_mac_algs, get_compression_algs,
get_x509_certificate_algs, get_public_key_algs) are external inputs and
appear as parameters; the byte strings split on commas in the source are
written as their resulting lists. The source first removes
ecdh-sha2-nistp521 from the asyncssh kex list (list.remove drops the first
occurrence) and reverses it, then overwrites the kex list with a
hardcoded JSCH-mimicking list; the encryption byte string has its single
3des-ctr substring replaced by the empty string before splitting, leaving
an empty entry; the final decoding comprehension keeps only non-empty
entries. -/
def get_algs_config (kex0 enc0 mac0 comp0 sig_x509 sig_pub : List String) : AlgsConfig :=
  let cfg : AlgsConfig :=
    { server_host_key_algs := ["ssh-rsa"]
      kex_algs := kex0
      encryption_algs := enc0
      mac_algs := mac0
      compression_algs := comp0
      signature_algs := sig_x509 ++ sig_pub }
  -- OpenSSH 7.2 compatibility
  let cfg := { cfg with kex_algs := cfg.kex_algs.erase "ecdh-sha2-nistp521" }
  -- Reverse order of kex_algs to prefer less secure algorithms
  let cfg := { cfg with kex_algs := cfg.kex_algs.reverse }
  -- Mimic JSCH config
  let cfg := { cfg with kex_algs :=
    ["ecdh-sha2-nistp256", "ecdh-sha2-nistp384", "ecdh-sha2-nistp521",
     "diffie-hellman-group14-sha1", "diffie-hellman-group-exchange-sha256",
     "diffie-hellman-group-exchange-sha1", "diffie-hellman-group1-sha1"] }
  let cfg := { cfg with server_host_key_algs :=
    ["ssh-rsa", "ssh-dss", "ecdsa-sha2-nistp256", "ecdsa-sha2-nistp384",
     "ecdsa-sha2-nistp521"] }
  let cfg := { cfg with encryption_algs :=
    ["aes128-ctr", "aes128-cbc", "", "3des-cbc", "blowfish-cbc", "aes192-ctr",
     "aes192-cbc", "aes256-ctr", "aes256-cbc"] }
  let cfg := { cfg with mac_algs :=
    ["hmac-md5", "hmac-sha1", "hmac-sha2-256", "hmac-sha1-96", "hmac-md5-96"] }
  let cfg := { cfg with compression_algs := ["none"] }
  { server_host_key_algs := cfg.server_host_key_algs.filter (fun a => a ≠ "")
    kex_algs := cfg.kex_algs.filter (fun a => a ≠ "")
    encryption_algs := cfg.encryption_algs.filter (fun a => a ≠ "")
    mac_algs := cfg.mac_algs.filter (fun a => a ≠ "")
    compression_algs := cfg.compression_algs.filter (fun a => a ≠ "")
    signature_algs := cfg.signature_algs.filter (fun a => a ≠ "") }

/-!
Entity model, from src/models/models.py. The SSH and Port entities are
embedded as records; Ports are identified by their port_number and SSHs
by their database id. Each mutating entity method is wrapped by the
auto_renew_objects decorator, which reloads the entity and commits, so the
before_update hook of the entity fires after each such method; the
embedding composes each method with the corresponding before_update.
Datetimes are abstracted as numbers and the now argument of an operation
stands for datetime.now() at the moment it runs; host_ipv4 stands for
utils.get_ipv4_address().
-/

/-- The SSH entity: credential identity, liveness, bound port and the set
of ports that ever used it (the reverse side of Port.used_ssh_list). -/
structure SSHState where
  id : Nat
  ip : String
  username : String := ""
  password : String := ""
  ssh_port : Nat := 22
  is_live : Option Bool := none
  port : Option Nat := none
  used_ports : List Nat := []
  last_checked : Option Nat := none
  last_modified : Nat := 0
deriving Repr, DecidableEq

/-- The Port entity. -/
structure PortState where
  port_number : Nat
  auto_connect : Bool := true
  ssh : Option Nat := none
  is_connected : Bool := false
  public_ip : Option String := none
  time_connected : Option Nat := none
  is_working : Bool := false
  used_ssh_list : List Nat := []
  proxy_address : Option String := none
  last_checked : Option Nat := none
  last_modified : Nat := 0
deriving Repr, DecidableEq

namespace SSH

/-- SSH.before_update: stamp last_modified (Model.before_update), then add
the currently bound port to used_ports when one is bound and it is not a
member yet. This fires on every mutating update of the SSH entity. -/
def before_update (now : Nat) (s : SSHState) : SSHState :=
  let s := { s with last_modified := now }
  match s.port with
  | some pt => if pt ∈ s.used_ports then s else { s with used_ports := s.used_ports ++ [pt] }
  | none => s

/-- Model.update_check_result on an SSH: set the given fields together
with last_checked = now, then commit, firing before_update. The only
field the health checker sets this way is is_live. -/
def update_check_result (now : Nat) (s : SSHState) (new_is_live : Option Bool) : SSHState :=
  before_update now { s with is_live := new_is_live, last_checked := some now }

end SSH

/-- The candidate set of SSH.get_ssh_for_port: the select filters on the
truthiness of is_live (only True passes; None and False are falsy), and
with unique=True a second filter drops SSHs whose id is in
port.used_ssh_list.id. -/
def ssh_candidates (db : List SSHState) (port : PortState) (unique : Bool) :
    List SSHState :=
  let q := db.filter (fun s => s.is_live = some true)
  if unique then q.filter (fun s => s.id ∉ port.used_ssh_list) else q

/-- SSH.get_ssh_for_port: query.random(1) draws one row of the candidate
set uniformly at random, modelled by an external draw r reduced modulo
the number of candidates; with no candidate the result is None. -/
def get_ssh_for_port (db : List SSHState) (port : PortState) (unique : Bool)
    (r : Nat) : Option SSHState :=
  (ssh_candidates db port unique).get? (r % (ssh_candidates db port unique).length)

namespace Port

/-- Port.before_update: stamp last_modified (Model.before_update); set
time_connected to now when connected and it was empty, clear it when not
connected; when connected, add the assigned SSH to used_ssh_list if not a
member yet; recompute proxy_address. -/
def before_update (now : Nat) (host_ipv4 : String) (p : PortState) : PortState :=
  let p := { p with last_modified := now }
  let p :=
    if p.is_connected then { p with time_connected := some (p.time_connected.getD now) }
    else { p with time_connected := none }
  let p :=
    if p.is_connected then
      match p.ssh with
      | some s =>
        if s ∈ p.used_ssh_list then p
        else { p with used_ssh_list := p.used_ssh_list ++ [s] }
      | none => p
    else p
  { p with proxy_address := some ("socks5://" ++ host_ipv4 ++ ":" ++ toString p.port_number) }

/-- Port.assign_ssh: set the assigned SSH, clear is_connected and
last_checked, then commit (before_update fires). -/
def assign_ssh (now : Nat) (host_ipv4 : String) (p : PortState) (s : Option Nat) :
    PortState :=
  before_update now host_ipv4 { p with ssh := s, is_connected := false, last_checked := none }

/-- Port.disconnect_ssh: when remove_from_used is set and an SSH is
assigned, remove it from used_ssh_list; then assign_ssh(None). -/
def disconnect_ssh (now : Nat) (host_ipv4 : String) (p : PortState)
    (remove_from_used : Bool) : PortState :=
  let p :=
    match p.ssh with
    | some s =>
      if remove_from_used then { p with used_ssh_list := p.used_ssh_list.erase s } else p
    | none => p
  assign_ssh now host_ipv4 p none

/-- Port.reset_status: clear last_checked (Model.reset_status), empty
public_ip, unassign the SSH, clear is_connected, empty used_ssh_list,
clear is_working, then commit (before_update fires). -/
def reset_status (now : Nat) (host_ipv4 : String) (p : PortState) : PortState :=
  before_update now host_ipv4
    { p with last_checked := none, public_ip := some "", ssh := none,
             is_connected := false, used_ssh_list := [], is_working := false }

end Port

/-- One operation on the module state, for reasoning about arbitrary
interleavings of connect_ssh and kill_proxy_on_port calls. -/
inductive TunnelOp where
  | connect (oracle : Nat → AttemptOutcome) (retry : Nat) (port : Nat)
  | kill (port : Nat)

/-- Effect of one operation on the module state (a kill that raises
SSHError leaves the state unchanged). -/
def TunnelOp.step (st : TunnelState) : TunnelOp → TunnelState
  | .connect oracle retry port => (connect_ssh oracle port retry st).1
  | .kill port => (kill_proxy_state st port).getD st

/-! Concrete states used by the claim witnesses and counterexamples. -/

/-- A Port that is connected and verified working, used to exhibit the
behaviour of disconnect_ssh on the is_working flag. -/
def c2_port : PortState :=
  { port_number := 20000, ssh := some 1, is_connected := true, is_working := true }

/-- A Port carrying the full state a connected, working proxy would have,
used to exhibit what disconnect_ssh leaves behind. -/
def c6_port : PortState :=
  { port_number := 20000, ssh := some 1, is_connected := true,
    public_ip := some "1.2.3.4", time_connected := some 10, is_working := true,
    used_ssh_list := [1, 2] }

/-- An SSH bound to port 20000 with empty usage history, and that port in
the not-connected state, used to show used_ports growth without a
connection. -/
def c7_ssh : SSHState := { id := 1, ip := "10.0.0.5", port := some 20000 }

/-- The Port entity c7_ssh is bound to: assigned but not connected. -/
def c7_port : PortState := { port_number := 20000, ssh := some 1, is_connected := false }

/-- A small SSH table: id 1 live and unused by the port, id 2 dead,
id 3 live but already in the used list of the port. -/
def c4_db : List SSHState :=
  [{ id := 1, ip := "10.0.0.5", is_live := some true },
   { id := 2, ip := "10.0.0.6", is_live := some false },
   { id := 3, ip := "10.0.0.7", is_live := some true }]

/-- A Port whose used list already contains SSH id 3. -/
def c4_port : PortState := { port_number := 20000, used_ssh_list := [3] }

/-! Helper lemmas about the embedded operations. -/




theorem kill_cons_eq {p : ProxyInfo} {ps : List ProxyInfo} {port : Nat} (h : p.port = port) :
    kill_proxy_on_port (p :: ps) port = some (ps, p) := by
  simp [kill_proxy_on_port, h]

theorem kill_cons_ne {p : ProxyInfo} {ps : List ProxyInfo} {port : Nat} (h : ¬p.port = port) :
    kill_proxy_on_port (p :: ps) port
      = (kill_proxy_on_port ps port).map (fun v => (p :: v.1, v.2)) := by
  simp only [kill_proxy_on_port, if_neg h]
  cases hk : kill_proxy_on_port ps port with
  | none => rfl
  | some v => obtain ⟨a, b⟩ := v; rfl

theorem kill_proxy_on_port_eq_none {ps : List ProxyInfo} {port : Nat} :
    kill_proxy_on_port ps port = none ↔ ∀ q ∈ ps, q.port ≠ port := by
  induction ps with
  | nil => simp [kill_proxy_on_port]
  | cons p ps ih =>
    by_cases h : p.port = port
    · simp [kill_cons_eq h, h]
    · simp [kill_cons_ne h, Option.map_eq_none', ih, h]

theorem kill_proxy_on_port_some {ps ps2 : List ProxyInfo} {port : Nat} {q : ProxyInfo}
    (h : kill_proxy_on_port ps port = some (ps2, q)) :
    q.port = port ∧ q ∈ ps ∧ ps2.Sublist ps ∧ ps.length = ps2.length + 1 := by
  induction ps generalizing ps2 with
  | nil => simp [kill_proxy_on_port] at h
  | cons p ps ih =>
    by_cases hp : p.port = port
    · rw [kill_cons_eq hp] at h
      simp at h
      obtain ⟨h1, h2⟩ := h
      subst h1; subst h2
      exact ⟨hp, by simp, List.sublist_cons_self p ps, by simp⟩
    · rw [kill_cons_ne hp] at h
      cases hk : kill_proxy_on_port ps port with
      | none => rw [hk] at h; simp at h
      | some v =>
        obtain ⟨ps3, q3⟩ := v
        rw [hk] at h
        simp at h
        obtain ⟨h1, h2⟩ := h
        subst h2
        obtain ⟨hq, hm, hs, hl⟩ := ih hk
        subst h1
        exact ⟨hq, by simp [hm], List.Sublist.cons₂ p hs, by simp [hl]⟩

theorem kill_proxy_on_port_some_not_mem {ps ps2 : List ProxyInfo} {port : Nat} {q : ProxyInfo}
    (hnd : (ps.map (fun x => x.port)).Nodup)
    (h : kill_proxy_on_port ps port = some (ps2, q)) :
    port ∉ ps2.map (fun x => x.port) := by
  induction ps generalizing ps2 with
  | nil => simp [kill_proxy_on_port] at h
  | cons p ps ih =>
    simp only [List.map_cons, List.nodup_cons] at hnd
    by_cases hp : p.port = port
    · rw [kill_cons_eq hp] at h
      simp at h
      obtain ⟨h1, _⟩ := h
      subst h1
      rw [← hp]
      exact hnd.1
    · rw [kill_cons_ne hp] at h
      cases hk : kill_proxy_on_port ps port with
      | none => rw [hk] at h; simp at h
      | some v =>
        obtain ⟨ps3, q3⟩ := v
        rw [hk] at h
        simp at h
        obtain ⟨h1, h2⟩ := h
        subst h2
        subst h1
        simp only [List.map_cons, List.mem_cons, not_or]
        exact ⟨fun hc => hp hc.symm, ih hnd.2 hk⟩



theorem kill_proxy_if_any_sublist (st : TunnelState) (port : Nat) :
    (kill_proxy_if_any st port).proxies.Sublist st.proxies := by
  unfold kill_proxy_if_any kill_proxy_state
  cases hk : kill_proxy_on_port st.proxies port with
  | none => simp
  | some v =>
    obtain ⟨ps2, q⟩ := v
    simp
    exact (kill_proxy_on_port_some hk).2.2.1

theorem kill_proxy_if_any_not_mem {st : TunnelState} {port : Nat}
    (hnd : (st.proxies.map (fun x => x.port)).Nodup) :
    port ∉ (kill_proxy_if_any st port).proxies.map (fun x => x.port) := by
  unfold kill_proxy_if_any kill_proxy_state
  cases hk : kill_proxy_on_port st.proxies port with
  | none =>
    simp only [Option.getD_none]
    rw [kill_proxy_on_port_eq_none] at hk
    simp only [List.mem_map, not_exists]
    intro x
    intro hc
    exact absurd hc.2 (hk x hc.1)
  | some v =>
    obtain ⟨ps2, q⟩ := v
    simp only [Option.getD_some]
    exact kill_proxy_on_port_some_not_mem hnd hk

theorem kill_proxy_if_any_nodup {st : TunnelState} {port : Nat}
    (hnd : (st.proxies.map (fun x => x.port)).Nodup) :
    ((kill_proxy_if_any st port).proxies.map (fun x => x.port)).Nodup :=
  ((kill_proxy_if_any_sublist st port).map (fun x => x.port)).nodup hnd

theorem connect_loop_eq_ok {oracle : Nat → AttemptOutcome} {i : Nat}
    (port retry : Nat) (st : TunnelState) (h : oracle i = .connected true) :
    connect_ssh_loop oracle port retry i st =
      ({ proxies := (kill_proxy_if_any st port).proxies ++ [{ port := port, connection := i }],
         closed := (kill_proxy_if_any st port).closed }, 1,
       .ok { port := port, connection := i }) := by
  rw [connect_ssh_loop.eq_def, h]

theorem connect_loop_eq_verify_fail {oracle : Nat → AttemptOutcome} {i : Nat}
    (port retry : Nat) (st : TunnelState) (h : oracle i = .connected false) :
    connect_ssh_loop oracle port retry i st =
      ({ proxies := (kill_proxy_if_any st port).proxies,
         closed := (kill_proxy_if_any st port).closed ++ [i] }, 1,
       .sshError "Cannot connect to forwarded proxy.") := by
  rw [connect_ssh_loop.eq_def, h]

theorem connect_loop_eq_os_retry {oracle : Nat → AttemptOutcome} {i : Nat}
    (port r : Nat) (st : TunnelState) (h : oracle i = .failed .osError) :
    connect_ssh_loop oracle port (r + 1) i st =
      ((connect_ssh_loop oracle port r (i + 1) (kill_proxy_if_any st port)).1,
       (connect_ssh_loop oracle port r (i + 1) (kill_proxy_if_any st port)).2.1 + 1,
       (connect_ssh_loop oracle port r (i + 1) (kill_proxy_if_any st port)).2.2) := by
  rw [connect_ssh_loop.eq_def, h]

theorem connect_loop_eq_os_exhausted {oracle : Nat → AttemptOutcome} {i : Nat}
    (port : Nat) (st : TunnelState) (h : oracle i = .failed .osError) :
    connect_ssh_loop oracle port 0 i st =
      (kill_proxy_if_any st port, 1, .sshError "OSError: .") := by
  rw [connect_ssh_loop.eq_def, h]
  rfl

theorem connect_loop_eq_timeout {oracle : Nat → AttemptOutcome} {i : Nat}
    (port retry : Nat) (st : TunnelState) (h : oracle i = .failed .timeoutError) :
    connect_ssh_loop oracle port retry i st =
      (kill_proxy_if_any st port, 1, .sshError "TimeoutError: .") := by
  rw [connect_ssh_loop.eq_def, h]
  cases retry <;> rfl

theorem connect_loop_eq_proto {oracle : Nat → AttemptOutcome} {i : Nat}
    (port retry : Nat) (st : TunnelState) (h : oracle i = .failed .sshProtoError) :
    connect_ssh_loop oracle port retry i st =
      (kill_proxy_if_any st port, 1, .sshError "Error: .") := by
  rw [connect_ssh_loop.eq_def, h]
  cases retry <;> rfl



theorem connect_ssh_loop_allOs {oracle : Nat → AttemptOutcome}
    (h : ∀ j, oracle j = .failed .osError) (port : Nat) :
    ∀ retry i st, (connect_ssh_loop oracle port retry i st).2.1 = retry + 1 ∧
      (connect_ssh_loop oracle port retry i st).2.2 = .sshError "OSError: ." := by
  intro retry
  induction retry with
  | zero =>
    intro i st
    rw [connect_loop_eq_os_exhausted port st (h i)]
    exact ⟨rfl, rfl⟩
  | succ r ih =>
    intro i st
    rw [connect_loop_eq_os_retry port r st (h i)]
    refine ⟨?_, (ih (i + 1) (kill_proxy_if_any st port)).2⟩
    simp [(ih (i + 1) (kill_proxy_if_any st port)).1]

theorem connect_ssh_loop_ok_iff {oracle : Nat → AttemptOutcome} (port : Nat) :
    ∀ retry i st, (∃ pinfo, (connect_ssh_loop oracle port retry i st).2.2 = .ok pinfo) ↔
      ∃ k, k ≤ retry ∧ (∀ j, j < k → oracle (i + j) = .failed .osError) ∧
        oracle (i + k) = .connected true := by
  intro retry
  induction retry with
  | zero =>
    intro i st
    constructor
    · intro ⟨pinfo, hp⟩
      cases h : oracle i with
      | connected b =>
        cases b with
        | true => exact ⟨0, le_refl 0, by omega, by simpa using h⟩
        | false => rw [connect_loop_eq_verify_fail port 0 st h] at hp; simp at hp
      | failed e =>
        cases e with
        | osError => rw [connect_loop_eq_os_exhausted port st h] at hp; simp at hp
        | timeoutError => rw [connect_loop_eq_timeout port 0 st h] at hp; simp at hp
        | sshProtoError => rw [connect_loop_eq_proto port 0 st h] at hp; simp at hp
    · intro ⟨k, hk, _, hconn⟩
      interval_cases k
      simp only [Nat.add_zero] at hconn
      rw [connect_loop_eq_ok port 0 st hconn]
      exact ⟨_, rfl⟩
  | succ r ih =>
    intro i st
    cases h : oracle i with
    | connected b =>
      cases b with
      | true =>
        rw [connect_loop_eq_ok port (r + 1) st h]
        constructor
        · intro _
          exact ⟨0, Nat.zero_le _, by omega, by simpa using h⟩
        · intro _
          exact ⟨_, rfl⟩
      | false =>
        rw [connect_loop_eq_verify_fail port (r + 1) st h]
        simp only
        constructor
        · intro ⟨pinfo, hp⟩; simp at hp
        · intro ⟨k, hk, hos, hconn⟩
          cases k with
          | zero => simp only [Nat.add_zero] at hconn; rw [h] at hconn; simp at hconn
          | succ m =>
            have := hos 0 (Nat.succ_pos m)
            simp only [Nat.add_zero] at this
            rw [h] at this
            simp at this
    | failed e =>
      cases e with
      | osError =>
        rw [connect_loop_eq_os_retry port r st h]
        simp only
        rw [ih (i + 1) (kill_proxy_if_any st port)]
        constructor
        · intro ⟨k, hk, hos, hconn⟩
          refine ⟨k + 1, by omega, ?_, ?_⟩
          · intro j hj
            cases j with
            | zero => simpa using h
            | succ m =>
              have := hos m (by omega)
              simpa [Nat.add_comm, Nat.add_assoc, Nat.add_left_comm] using this
          · simpa [Nat.add_comm, Nat.add_assoc, Nat.add_left_comm] using hconn
        · intro ⟨k, hk, hos, hconn⟩
          cases k with
          | zero => simp only [Nat.add_zero] at hconn; rw [h] at hconn; simp at hconn
          | succ m =>
            refine ⟨m, by omega, ?_, ?_⟩
            · intro j hj
              have := hos (j + 1) (by omega)
              simpa [Nat.add_comm, Nat.add_assoc, Nat.add_left_comm] using this
            · simpa [Nat.add_comm, Nat.add_assoc, Nat.add_left_comm] using hconn
      | timeoutError =>
        rw [connect_loop_eq_timeout port (r + 1) st h]
        simp only
        constructor
        · intro ⟨pinfo, hp⟩; simp at hp
        · intro ⟨k, hk, hos, hconn⟩
          cases k with
          | zero => simp only [Nat.add_zero] at hconn; rw [h] at hconn; simp at hconn
          | succ m =>
            have := hos 0 (Nat.succ_pos m)
            simp only [Nat.add_zero] at this
            rw [h] at this
            simp at this
      | sshProtoError =>
        rw [connect_loop_eq_proto port (r + 1) st h]
        simp only
        constructor
        · intro ⟨pinfo, hp⟩; simp at hp
        · intro ⟨k, hk, hos, hconn⟩
          cases k with
          | zero => simp only [Nat.add_zero] at hconn; rw [h] at hconn; simp at hconn
          | succ m =>
            have := hos 0 (Nat.succ_pos m)
            simp only [Nat.add_zero] at this
            rw [h] at this
            simp at this



theorem connect_ssh_loop_registry {oracle : Nat → AttemptOutcome} (port : Nat) :
    ∀ retry i st, (st.proxies.map (fun x => x.port)).Nodup →
      (((connect_ssh_loop oracle port retry i st).1.proxies.map (fun x => x.port)).Nodup ∧
       (∀ pinfo, (connect_ssh_loop oracle port retry i st).2.2 = .ok pinfo →
          port ∈ (connect_ssh_loop oracle port retry i st).1.proxies.map (fun x => x.port)) ∧
       (∀ m, (connect_ssh_loop oracle port retry i st).2.2 = .sshError m →
          port ∉ (connect_ssh_loop oracle port retry i st).1.proxies.map (fun x => x.port))) := by
  intro retry
  induction retry with
  | zero =>
    intro i st hnd
    cases h : oracle i with
    | connected b =>
      cases b with
      | true =>
        rw [connect_loop_eq_ok port 0 st h]
        refine ⟨?_, fun pinfo _ => ?_, fun m hm => by simp at hm⟩
        · simp only [List.map_append, List.map_cons, List.map_nil]
          rw [List.nodup_append]
          refine ⟨kill_proxy_if_any_nodup hnd, List.nodup_singleton _, ?_⟩
          intro a ha hb
          simp at hb
          subst hb
          exact kill_proxy_if_any_not_mem hnd ha
        · simp
      | false =>
        rw [connect_loop_eq_verify_fail port 0 st h]
        exact ⟨kill_proxy_if_any_nodup hnd, fun pinfo hp => by simp at hp,
          fun m _ => kill_proxy_if_any_not_mem hnd⟩
    | failed e =>
      cases e with
      | osError =>
        rw [connect_loop_eq_os_exhausted port st h]
        exact ⟨kill_proxy_if_any_nodup hnd, fun pinfo hp => by simp at hp,
          fun m _ => kill_proxy_if_any_not_mem hnd⟩
      | timeoutError =>
        rw [connect_loop_eq_timeout port 0 st h]
        exact ⟨kill_proxy_if_any_nodup hnd, fun pinfo hp => by simp at hp,
          fun m _ => kill_proxy_if_any_not_mem hnd⟩
      | sshProtoError =>
        rw [connect_loop_eq_proto port 0 st h]
        exact ⟨kill_proxy_if_any_nodup hnd, fun pinfo hp => by simp at hp,
          fun m _ => kill_proxy_if_any_not_mem hnd⟩
  | succ r ih =>
    intro i st hnd
    cases h : oracle i with
    | connected b =>
      cases b with
      | true =>
        rw [connect_loop_eq_ok port (r + 1) st h]
        refine ⟨?_, fun pinfo _ => ?_, fun m hm => by simp at hm⟩
        · simp only [List.map_append, List.map_cons, List.map_nil]
          rw [List.nodup_append]
          refine ⟨kill_proxy_if_any_nodup hnd, List.nodup_singleton _, ?_⟩
          intro a ha hb
          simp at hb
          subst hb
          exact kill_proxy_if_any_not_mem hnd ha
        · simp
      | false =>
        rw [connect_loop_eq_verify_fail port (r + 1) st h]
        exact ⟨kill_proxy_if_any_nodup hnd, fun pinfo hp => by simp at hp,
          fun m _ => kill_proxy_if_any_not_mem hnd⟩
    | failed e =>
      cases e with
      | osError =>
        rw [connect_loop_eq_os_retry port r st h]
        exact ih (i + 1) (kill_proxy_if_any st port) (kill_proxy_if_any_nodup hnd)
      | timeoutError =>
        rw [connect_loop_eq_timeout port (r + 1) st h]
        exact ⟨kill_proxy_if_any_nodup hnd, fun pinfo hp => by simp at hp,
          fun m _ => kill_proxy_if_any_not_mem hnd⟩
      | sshProtoError =>
        rw [connect_loop_eq_proto port (r + 1) st h]
        exact ⟨kill_proxy_if_any_nodup hnd, fun pinfo hp => by simp at hp,
          fun m _ => kill_proxy_if_any_not_mem hnd⟩

/-- Claim C3: with a credential whose endpoint always fails with a
transport-level refusal (an exception matching except OSError), connect_ssh
called with retry = N makes exactly N + 1 connection attempts and then
fails with SSHError. -/
theorem C3_retry_bound (oracle : Nat → AttemptOutcome) (port N : Nat) (st : TunnelState)
    (h : ∀ j, oracle j = .failed .osError) :
    (connect_ssh oracle port N st).2.1 = N + 1 ∧
    ∃ msg, (connect_ssh oracle port N st).2.2 = .sshError msg := by
  have hh := connect_ssh_loop_allOs h port N 0 st
  exact ⟨hh.1, ⟨_, hh.2⟩⟩

/-- Witness for C3 at retry = 3 and an always-refused endpoint: exactly 4
attempts, then SSHError. -/
theorem C3_retry_bound_witness :
    (connect_ssh (fun _ => .failed .osError) 20000 3 {}).2.1 = 3 + 1 ∧
    ∃ msg, (connect_ssh (fun _ => .failed .osError) 20000 3 {}).2.2 = .sshError msg :=
  C3_retry_bound (fun _ => .failed .osError) 20000 3 {} (fun _ => rfl)

/-- Claim C1 counterexample: a timeout during connect is raised as
asyncio.TimeoutError, which connect_ssh catches in its second, non-retrying
except clause. With retry = 3 and every attempt timing out, connect_ssh
makes exactly 1 attempt and fails at once with SSHError, whereas the claim
says transport-level timeouts are retried up to 3 times (4 attempts). -/
theorem C1_counterexample :
    (connect_ssh (fun _ => .failed .timeoutError) 20000 3 {}).2.1 = 1 ∧
    (connect_ssh (fun _ => .failed .timeoutError) 20000 3 {}).2.2 =
      .sshError "TimeoutError: ." ∧
    (1 : Nat) ≠ 3 + 1 := by
  exact ⟨by decide, by decide, by decide⟩

/-- Claim C1 amended: failures matching except OSError (connection refused,
network unreachable) are retried with the same parameters while the budget
is positive, decrementing it by one each attempt, and once the budget is
exhausted connect_ssh fails with an SSHError naming the last cause;
failures matching the second except clause (asyncssh protocol and
authentication errors, and also asyncio.TimeoutError, i.e. a timeout
during connect) are never retried and surface immediately as SSHError. -/
theorem C1_retry_classification (oracle : Nat → AttemptOutcome) (port i r : Nat)
    (st : TunnelState) :
    (oracle i = .failed .osError →
      connect_ssh_loop oracle port (r + 1) i st =
        ((connect_ssh_loop oracle port r (i + 1) (kill_proxy_if_any st port)).1,
         (connect_ssh_loop oracle port r (i + 1) (kill_proxy_if_any st port)).2.1 + 1,
         (connect_ssh_loop oracle port r (i + 1) (kill_proxy_if_any st port)).2.2)) ∧
    (oracle i = .failed .osError →
      connect_ssh_loop oracle port 0 i st =
        (kill_proxy_if_any st port, 1, .sshError "OSError: .")) ∧
    (oracle i = .failed .timeoutError →
      connect_ssh_loop oracle port r i st =
        (kill_proxy_if_any st port, 1, .sshError "TimeoutError: .")) ∧
    (oracle i = .failed .sshProtoError →
      connect_ssh_loop oracle port r i st =
        (kill_proxy_if_any st port, 1, .sshError "Error: .")) ∧
    ((∀ j, oracle j = .failed .osError) →
      (connect_ssh oracle port r st).2.1 = r + 1 ∧
      (connect_ssh oracle port r st).2.2 = .sshError "OSError: .") := by
  refine ⟨fun h => connect_loop_eq_os_retry port r st h,
    fun h => connect_loop_eq_os_exhausted port st h,
    fun h => connect_loop_eq_timeout port r st h,
    fun h => connect_loop_eq_proto port r st h,
    fun h => connect_ssh_loop_allOs h port r 0 st⟩

/-- Witness for the amended C1: a first-attempt timeout with budget 3
surfaces immediately without retrying. -/
theorem C1_retry_classification_witness :
    connect_ssh_loop (fun _ => .failed .timeoutError) 20000 3 0 {} =
      (kill_proxy_if_any {} 20000, 1, .sshError "TimeoutError: .") :=
  (C1_retry_classification (fun _ => .failed .timeoutError) 20000 0 3 {}).2.2.1 rfl

theorem verify_ssh_true_iff (oracle : Nat → AttemptOutcome) (port : Nat) (st : TunnelState) :
    (verify_ssh oracle port st).2 = true ↔
      ∃ pinfo, (connect_ssh oracle port 3 st).2.2 = .ok pinfo := by
  unfold verify_ssh
  rcases hc : connect_ssh oracle port 3 st with ⟨st2, n, res⟩
  cases res with
  | ok pinfo => simp
  | sshError m => simp

theorem verify_ssh_false_iff (oracle : Nat → AttemptOutcome) (port : Nat) (st : TunnelState) :
    (verify_ssh oracle port st).2 = false ↔
      ∃ m, (connect_ssh oracle port 3 st).2.2 = .sshError m := by
  unfold verify_ssh
  rcases hc : connect_ssh oracle port 3 st with ⟨st2, n, res⟩
  cases res with
  | ok pinfo => simp
  | sshError m => simp

theorem verify_ssh_proxies (oracle : Nat → AttemptOutcome) (port : Nat) (st : TunnelState) :
    (verify_ssh oracle port st).1.proxies = (connect_ssh oracle port 3 st).1.proxies := by
  unfold verify_ssh
  rcases hc : connect_ssh oracle port 3 st with ⟨st2, n, res⟩
  cases res with
  | ok pinfo => simp
  | sshError m => simp

theorem verify_ssh_closed_sub (oracle : Nat → AttemptOutcome) (port : Nat) (st : TunnelState)
    (c : Nat) (hc : c ∈ (connect_ssh oracle port 3 st).1.closed) :
    c ∈ (verify_ssh oracle port st).1.closed := by
  unfold verify_ssh
  rcases hk : connect_ssh oracle port 3 st with ⟨st2, n, res⟩
  rw [hk] at hc
  cases res with
  | ok pinfo => simp at hc ⊢; exact Or.inl hc
  | sshError m => simpa using hc

/-- Claim C8: verify_ssh never raises (it is a total function of the
attempt history): it returns true exactly when establishment fully
succeeded, i.e. some attempt within the default budget of 3 retries ended
with the tunnel open and the end-to-end IP verification passing, every
earlier attempt having been a retried OSError; and every SSHError raised
by connect_ssh is converted into false. -/
theorem C8_verify_never_raises (oracle : Nat → AttemptOutcome) (port : Nat)
    (st : TunnelState) :
    ((verify_ssh oracle port st).2 = true ↔
      ∃ k, k ≤ 3 ∧ (∀ j, j < k → oracle j = .failed .osError) ∧
        oracle k = .connected true) ∧
    (∀ msg, (connect_ssh oracle port 3 st).2.2 = .sshError msg →
      (verify_ssh oracle port st).2 = false) ∧
    (∀ pinfo, (connect_ssh oracle port 3 st).2.2 = .ok pinfo →
      (verify_ssh oracle port st).2 = true) := by
  have hiff := @connect_ssh_loop_ok_iff oracle port 3 0 st
  simp only [Nat.zero_add] at hiff
  refine ⟨(verify_ssh_true_iff oracle port st).trans ?_, ?_, ?_⟩
  · exact hiff
  · intro msg hmsg
    rw [verify_ssh_false_iff]
    exact ⟨msg, hmsg⟩
  · intro pinfo hp
    rw [verify_ssh_true_iff]
    exact ⟨pinfo, hp⟩

/-- Witness for C8: an endpoint whose first attempt times out yields
false; one that succeeds at once (tunnel open, IP verified) yields true. -/
theorem C8_verify_never_raises_witness :
    (verify_ssh (fun _ => .failed .timeoutError) 20000 {}).2 = false ∧
    (verify_ssh (fun _ => .connected true) 20001 {}).2 = true :=
  ⟨(C8_verify_never_raises (fun _ => .failed .timeoutError) 20000 {}).2.1
      "TimeoutError: ." (by decide),
   (C8_verify_never_raises (fun _ => .connected true) 20001 {}).2.2
      { port := 20001, connection := 0 } (by decide)⟩

/-- Claim C5 counterexample: when establishment fully succeeds, verify_ssh
returns true after closing the connection, but the ProxyInfo that
connect_ssh appended for that attempt stays in the proxies registry: the
registry still holds a session for the local port of the attempt when
verify_ssh returns. -/
theorem C5_counterexample :
    (verify_ssh (fun _ => .connected true) 20000 {}).2 = true ∧
    20000 ∈ (verify_ssh (fun _ => .connected true) 20000 {}).1.proxies.map
      (fun x => x.port) := by
  exact ⟨by decide, by decide⟩

/-- Claim C5 amended: when verify_ssh returns false, the registry holds no
session for the port of the attempt; in particular an empty IP-lookup
result on the first attempt makes verify_ssh return false after closing
the just-created connection. When verify_ssh returns true, however, the
connection is closed but its registry entry for the port remains. -/
theorem C5_verify_registry (oracle : Nat → AttemptOutcome) (port : Nat)
    (st : TunnelState) (hnd : (st.proxies.map (fun x => x.port)).Nodup) :
    ((verify_ssh oracle port st).2 = false →
      port ∉ (verify_ssh oracle port st).1.proxies.map (fun x => x.port)) ∧
    ((verify_ssh oracle port st).2 = true →
      port ∈ (verify_ssh oracle port st).1.proxies.map (fun x => x.port)) ∧
    (oracle 0 = .connected false →
      (verify_ssh oracle port st).2 = false ∧
      0 ∈ (verify_ssh oracle port st).1.closed) := by
  have hreg := @connect_ssh_loop_registry oracle port 3 0 st hnd
  refine ⟨?_, ?_, ?_⟩
  · intro hf
    rw [verify_ssh_proxies]
    obtain ⟨m, hm⟩ := (verify_ssh_false_iff oracle port st).1 hf
    exact hreg.2.2 m hm
  · intro ht
    rw [verify_ssh_proxies]
    obtain ⟨pinfo, hp⟩ := (verify_ssh_true_iff oracle port st).1 ht
    exact hreg.2.1 pinfo hp
  · intro h0
    have hc := @connect_loop_eq_verify_fail oracle 0 port 3 st h0
    have hfail : (connect_ssh oracle port 3 st).2.2 =
        .sshError "Cannot connect to forwarded proxy." := by
      unfold connect_ssh
      rw [hc]
    constructor
    · rw [verify_ssh_false_iff]
      exact ⟨_, hfail⟩
    · apply verify_ssh_closed_sub
      unfold connect_ssh
      rw [hc]
      simp

/-- Witness for the amended C5: an empty IP lookup on the first attempt
yields false, the fresh connection is closed, and no session for the
port stays registered. -/
theorem C5_verify_registry_witness :
    ((verify_ssh (fun _ => .connected false) 20000 {}).2 = false ∧
      0 ∈ (verify_ssh (fun _ => .connected false) 20000 {}).1.closed) ∧
    (20000 ∉ (verify_ssh (fun _ => .connected false) 20000 {}).1.proxies.map
      (fun x => x.port)) :=
  ⟨(C5_verify_registry (fun _ => .connected false) 20000 {} (by decide)).2.2 rfl,
   (C5_verify_registry (fun _ => .connected false) 20000 {} (by decide)).1 (by decide)⟩

theorem TunnelOp_step_nodup {st : TunnelState} (op : TunnelOp)
    (hnd : (st.proxies.map (fun x => x.port)).Nodup) :
    ((op.step st).proxies.map (fun x => x.port)).Nodup := by
  cases op with
  | connect oracle retry port => exact (connect_ssh_loop_registry port retry 0 st hnd).1
  | kill port =>
    show (((kill_proxy_state st port).getD st).proxies.map (fun x => x.port)).Nodup
    unfold kill_proxy_state
    cases hk : kill_proxy_on_port st.proxies port with
    | none => simpa using hnd
    | some v =>
      obtain ⟨ps2, q⟩ := v
      simp only [Option.getD_some]
      exact (((kill_proxy_on_port_some hk).2.2.1).map (fun x => x.port)).nodup hnd

theorem foldl_TunnelOp_step_nodup (ops : List TunnelOp) :
    ∀ st : TunnelState, (st.proxies.map (fun x => x.port)).Nodup →
      (((ops.foldl TunnelOp.step st).proxies.map (fun x => x.port)).Nodup) := by
  induction ops with
  | nil => intro st hnd; simpa using hnd
  | cons op ops ih =>
    intro st hnd
    simp only [List.foldl_cons]
    exact ih _ (TunnelOp_step_nodup op hnd)

/-- Claim C9: kill_proxy_on_port on a port with no registered session
raises SSHError; on a registered port (with the registry well-formed, one
session per port, as every reachable registry is) it succeeds once,
removing exactly that session so that a second call raises SSHError; and
after any sequence of connect_ssh and kill_proxy_on_port operations from
the initial empty registry, the registry never holds two sessions for the
same port number. -/
theorem C9_teardown (ps : List ProxyInfo) (port : Nat) (ops : List TunnelOp) :
    (kill_proxy_on_port ps port = none ↔ ∀ q ∈ ps, q.port ≠ port) ∧
    ((ps.map (fun x => x.port)).Nodup → port ∈ ps.map (fun x => x.port) →
      ∃ ps2 q, kill_proxy_on_port ps port = some (ps2, q) ∧ q.port = port ∧
        q ∈ ps ∧ ps.length = ps2.length + 1 ∧ kill_proxy_on_port ps2 port = none) ∧
    (((ops.foldl TunnelOp.step {}).proxies.map (fun x => x.port)).Nodup) := by
  refine ⟨kill_proxy_on_port_eq_none, ?_, foldl_TunnelOp_step_nodup ops {} (by simp)⟩
  intro hnd hmem
  cases hk : kill_proxy_on_port ps port with
  | none =>
    rw [kill_proxy_on_port_eq_none] at hk
    simp only [List.mem_map] at hmem
    obtain ⟨q, hq, hqp⟩ := hmem
    exact absurd hqp (hk q hq)
  | some v =>
    obtain ⟨ps2, q⟩ := v
    obtain ⟨hqp, hqm, _, hlen⟩ := kill_proxy_on_port_some hk
    have hnot := kill_proxy_on_port_some_not_mem hnd hk
    refine ⟨ps2, q, rfl, hqp, hqm, hlen, ?_⟩
    rw [kill_proxy_on_port_eq_none]
    intro x hx hxp
    exact hnot (List.mem_map.2 ⟨x, hx, hxp⟩)

/-- Witness for C9: a single-session registry on port 20000; teardown
succeeds once and fails on repetition; the empty-registry fold is
well-formed. -/
theorem C9_teardown_witness :
    (kill_proxy_on_port [] 20000 = none ↔
      ∀ q ∈ ([] : List ProxyInfo), q.port ≠ 20000) ∧
    (∃ ps2 q,
      kill_proxy_on_port [{ port := 20000, connection := 7 }] 20000 = some (ps2, q) ∧
      q.port = 20000 ∧ q ∈ [{ port := 20000, connection := 7 }] ∧
      ([({ port := 20000, connection := 7 } : ProxyInfo)]).length = ps2.length + 1 ∧
      kill_proxy_on_port ps2 20000 = none) :=
  ⟨(C9_teardown [] 20000 []).1,
   (C9_teardown [{ port := 20000, connection := 7 }] 20000 []).2.1
     (by decide) (by decide)⟩


/-- Claim C2 counterexample: disconnect_ssh (like assign_ssh, which it
calls) sets is_connected to false but leaves is_working untouched, so on a
connected, working port it produces is_working = true with
is_connected = false, violating the claimed invariant right after an
entity operation. -/
theorem C2_counterexample :
    ¬ ((Port.disconnect_ssh 5 "10.0.0.1" c2_port false).is_working = true →
       (Port.disconnect_ssh 5 "10.0.0.1" c2_port false).is_connected = true) := by
  decide

/-- Claim C2 amended: reset_status re-establishes the invariant (it ends
with is_working = false and is_connected = false), but assign_ssh and
disconnect_ssh only set is_connected to false and leave is_working
unchanged, so after them is_working = true while is_connected = false
holds exactly when is_working was already true before the call. -/
theorem C2_working_connected (now : Nat) (ip : String) (p : PortState)
    (s : Option Nat) (b : Bool) :
    (Port.reset_status now ip p).is_working = false ∧
    (Port.reset_status now ip p).is_connected = false ∧
    (Port.assign_ssh now ip p s).is_connected = false ∧
    (Port.assign_ssh now ip p s).is_working = p.is_working ∧
    (Port.disconnect_ssh now ip p b).is_connected = false ∧
    (Port.disconnect_ssh now ip p b).is_working = p.is_working := by
  cases hs : p.ssh <;> cases b <;>
    simp [Port.reset_status, Port.assign_ssh, Port.disconnect_ssh, Port.before_update, hs]


/-- Claim C6 counterexample: after disconnect_ssh with
remove_from_used = True on a connected working port, is_working is still
true, public_ip still holds the old address, and used_ssh_list has only
lost the currently assigned SSH, not been emptied — none of the claimed
all-cleared state holds. -/
theorem C6_counterexample :
    ¬ ((Port.disconnect_ssh 5 "10.0.0.1" c6_port true).is_working = false ∧
       (Port.disconnect_ssh 5 "10.0.0.1" c6_port true).used_ssh_list = [] ∧
       ((Port.disconnect_ssh 5 "10.0.0.1" c6_port true).public_ip = none ∨
        (Port.disconnect_ssh 5 "10.0.0.1" c6_port true).public_ip = some "")) := by
  decide

/-- Claim C6 amended: disconnect_ssh with remove_from_used = True clears
ssh, is_connected, last_checked and (through the update hook)
time_connected, and removes only the currently assigned SSH from
used_ssh_list; it leaves public_ip, is_working and the remaining
used_ssh_list members unchanged. The full clearing the claim describes is
what reset_status performs: ssh, is_connected, is_working, public_ip
(emptied to the empty string), time_connected, used_ssh_list and
last_checked all reach their empty values. -/
theorem C6_disconnect_and_reset (now : Nat) (ip : String) (p : PortState) :
    (Port.disconnect_ssh now ip p true).ssh = none ∧
    (Port.disconnect_ssh now ip p true).is_connected = false ∧
    (Port.disconnect_ssh now ip p true).last_checked = none ∧
    (Port.disconnect_ssh now ip p true).time_connected = none ∧
    (Port.disconnect_ssh now ip p true).public_ip = p.public_ip ∧
    (Port.disconnect_ssh now ip p true).is_working = p.is_working ∧
    (Port.disconnect_ssh now ip p true).used_ssh_list =
      (match p.ssh with
       | some s => p.used_ssh_list.erase s
       | none => p.used_ssh_list) ∧
    (Port.reset_status now ip p).ssh = none ∧
    (Port.reset_status now ip p).is_connected = false ∧
    (Port.reset_status now ip p).is_working = false ∧
    (Port.reset_status now ip p).public_ip = some "" ∧
    (Port.reset_status now ip p).time_connected = none ∧
    (Port.reset_status now ip p).used_ssh_list = [] ∧
    (Port.reset_status now ip p).last_checked = none := by
  cases hs : p.ssh <;>
    simp [Port.reset_status, Port.assign_ssh, Port.disconnect_ssh, Port.before_update, hs]



/-- Claim C7 counterexample: used_ports on the SSH is the reverse side of
the Port used_ssh_list relation, and SSH.before_update fires on every
mutating update of the SSH. Running update_check_result on an SSH bound to
a port that is not connected adds that port to the relation: the usage
history gains a member from a mere SSH mutation while the Port never
transitioned to connected. -/
theorem C7_counterexample :
    c7_port.is_connected = false ∧ c7_port.ssh = some c7_ssh.id ∧
    c7_ssh.used_ports = [] ∧
    (SSH.update_check_result 5 c7_ssh (some true)).used_ports = [20000] := by
  decide

/-- Claim C7 amended: on the Port side the claim holds — Port.before_update
adds the assigned SSH to used_ssh_list only when the port is connected,
and leaves the list unchanged when it is not. But SSH.before_update adds
the bound port to the SSH used_ports (the reverse side of the same
relation) on every mutating update of a bound SSH, regardless of the
connection state of the port, so the usage relation also grows from
SSH-side mutations while the port is not connected. -/
theorem C7_used_list_growth (now : Nat) (ip : String) (p : PortState)
    (s : SSHState) (pt sid : Nat) :
    (p.is_connected = false →
      (Port.before_update now ip p).used_ssh_list = p.used_ssh_list) ∧
    (p.is_connected = true → p.ssh = some sid → sid ∉ p.used_ssh_list →
      (Port.before_update now ip p).used_ssh_list = p.used_ssh_list ++ [sid]) ∧
    (s.port = some pt → pt ∈ (SSH.before_update now s).used_ports) := by
  refine ⟨?_, ?_, ?_⟩
  · intro hc
    simp [Port.before_update, hc]
  · intro hc hssh hnm
    simp [Port.before_update, hc, hssh, hnm]
  · intro hp
    unfold SSH.before_update
    rw [hp]
    by_cases hm : pt ∈ s.used_ports <;> simp [hm]

/-- Witness for the amended C7: the not-connected port keeps its history
through its own hook, the connected port gains the assigned SSH, and a
bound SSH pushes its port into used_ports. -/
theorem C7_used_list_growth_witness :
    (Port.before_update 5 "10.0.0.1" c7_port).used_ssh_list = c7_port.used_ssh_list ∧
    (Port.before_update 5 "10.0.0.1"
        { c7_port with is_connected := true }).used_ssh_list =
      c7_port.used_ssh_list ++ [1] ∧
    20000 ∈ (SSH.before_update 5 c7_ssh).used_ports :=
  ⟨(C7_used_list_growth 5 "10.0.0.1" c7_port c7_ssh 20000 1).1 rfl,
   (C7_used_list_growth 5 "10.0.0.1" { c7_port with is_connected := true }
      c7_ssh 20000 1).2.1 rfl rfl (by decide),
   (C7_used_list_growth 5 "10.0.0.1" c7_port c7_ssh 20000 1).2.2 rfl⟩

/-- Claim C10 counterexample: the kex list returned by get_algs_config is
the hardcoded JSCH-mimicking list, which contains ecdh-sha2-nistp521; the
earlier removal of that curve applied to the asyncssh-provided list that
the hardcoded list then replaced. Every call therefore returns a kex list
that includes the enumerated incompatible curve. -/
theorem C10_counterexample :
    "ecdh-sha2-nistp521" ∈ (get_algs_config [] [] [] [] [] []).kex_algs := by
  decide

/-- Claim C10 amended: on every call the returned key-exchange list equals
the hardcoded JSCH-compatibility list, independent of the asyncssh inputs,
and that list includes ecdh-sha2-nistp521; the removal of the curve for
OpenSSH 7.2 compatibility affects only the initial asyncssh kex list,
which the hardcoded assignment discards. -/
theorem C10_kex_algs (kex0 enc0 mac0 comp0 sx sp : List String) :
    (get_algs_config kex0 enc0 mac0 comp0 sx sp).kex_algs =
      ["ecdh-sha2-nistp256", "ecdh-sha2-nistp384", "ecdh-sha2-nistp521",
       "diffie-hellman-group14-sha1", "diffie-hellman-group-exchange-sha256",
       "diffie-hellman-group-exchange-sha1", "diffie-hellman-group1-sha1"] ∧
    "ecdh-sha2-nistp521" ∈ (get_algs_config kex0 enc0 mac0 comp0 sx sp).kex_algs := by
  refine ⟨rfl, ?_⟩
  rw [show (get_algs_config kex0 enc0 mac0 comp0 sx sp).kex_algs =
    ["ecdh-sha2-nistp256", "ecdh-sha2-nistp384", "ecdh-sha2-nistp521",
     "diffie-hellman-group14-sha1", "diffie-hellman-group-exchange-sha256",
     "diffie-hellman-group-exchange-sha1", "diffie-hellman-group1-sha1"] from rfl]
  decide

/-- Claim C4: get_ssh_for_port with unique = True returns None or an SSH
that is live and not in the used list of the port; it returns None exactly
when the candidate set (live SSHs not used by the port) is empty; and the
draw is uniform over the candidates: on the candidate index range the
selection is injective and every candidate is selected by some draw, so a
uniformly random draw (the SQL ORDER BY random LIMIT 1 of query.random(1))
yields each candidate with equal probability. -/
theorem C4_get_ssh_for_port (db : List SSHState) (port : PortState) (r : Nat) :
    (∀ s, get_ssh_for_port db port true r = some s →
      s.is_live = some true ∧ s.id ∉ port.used_ssh_list) ∧
    (get_ssh_for_port db port true r = none ↔ ssh_candidates db port true = []) ∧
    ((ssh_candidates db port true).Nodup →
      ∀ r1 r2, r1 < (ssh_candidates db port true).length →
        r2 < (ssh_candidates db port true).length →
        get_ssh_for_port db port true r1 = get_ssh_for_port db port true r2 →
        r1 = r2) ∧
    (∀ s ∈ ssh_candidates db port true,
      ∃ k, k < (ssh_candidates db port true).length ∧
        get_ssh_for_port db port true k = some s) := by
  refine ⟨?_, ?_, ?_, ?_⟩
  · intro s hs
    have hmem : s ∈ ssh_candidates db port true := List.get?_mem hs
    simp only [ssh_candidates, if_pos rfl, List.mem_filter, if_true] at hmem
    obtain ⟨⟨_, hlive⟩, hused⟩ := hmem
    refine ⟨by simpa using hlive, by simpa using hused⟩
  · constructor
    · intro h
      by_contra hne
      have hlen : 0 < (ssh_candidates db port true).length :=
        List.length_pos.2 hne
      have hlt := Nat.mod_lt r hlen
      rw [get_ssh_for_port, List.get?_eq_none] at h
      omega
    · intro h
      rw [get_ssh_for_port, h]
      simp
  · intro hnd r1 r2 h1 h2 heq
    rw [get_ssh_for_port, get_ssh_for_port, Nat.mod_eq_of_lt h1,
      Nat.mod_eq_of_lt h2, List.get?_eq_get h1, List.get?_eq_get h2] at heq
    have := (hnd.get_inj_iff).1 (Option.some.inj heq)
    exact Fin.mk.inj_iff.1 this
  · intro s hs
    obtain ⟨⟨k, hk⟩, hget⟩ := List.mem_iff_get.1 hs
    refine ⟨k, hk, ?_⟩
    rw [get_ssh_for_port, Nat.mod_eq_of_lt hk, List.get?_eq_get hk, hget]



/-- Witness for C4: on the concrete table only SSH id 1 is eligible; the
returned SSH is live and unused, and it is reachable by a draw. -/
theorem C4_get_ssh_for_port_witness :
    (({ id := 1, ip := "10.0.0.5", is_live := some true } : SSHState).is_live =
        some true ∧
      ({ id := 1, ip := "10.0.0.5", is_live := some true } : SSHState).id ∉
        c4_port.used_ssh_list) ∧
    ∃ k, k < (ssh_candidates c4_db c4_port true).length ∧
      get_ssh_for_port c4_db c4_port true k =
        some { id := 1, ip := "10.0.0.5", is_live := some true } :=
  ⟨(C4_get_ssh_for_port c4_db c4_port 0).1
      { id := 1, ip := "10.0.0.5", is_live := some true } (by decide),
   (C4_get_ssh_for_port c4_db c4_port 0).2.2.2
      { id := 1, ip := "10.0.0.5", is_live := some true } (by decide)⟩

end SshMaster
